import Mathlib

/-!
Shallow embedding of the naits_server repository (src/users.py,
src/sponsored_ads.py, src/faculty_wear.py) for checking its
natural-language specification.

Conventions of the embedding:
* Timestamps are integers counting seconds (the code stores timezone-aware
  datetimes; only differences and comparisons matter for the claims, and
  the float division by 60 in get_user_status is exact arithmetic here:
  inactive_for > T minutes iff now - last_active > 60*T seconds).
* Document-store collections are lists of records; a Mongo `_id` is a Nat
  and is assumed unique per collection (Mongo enforces this), so an
  `update_one`/`update_many` keyed on `_id` is a map over the list.
* A Mongo `$lt` comparison on a missing field matches no document, hence
  the `Option` timestamp and the `ltCutoff` helper.
* Fallible external calls (the asset store, the persistence step of the
  lazy status read, the sweep body) are given an explicit outcome
  parameter, so the Python try/except structure becomes a branch.
-/

namespace NaitsServer

/-- STATUS_CONFIG of src/users.py: the two presence thresholds, in minutes. -/
structure StatusConfig where
  IDLE_THRESHOLD : Int
  OFFLINE_THRESHOLD : Int
deriving Repr, DecidableEq

/-- A user document, restricted to the fields the presence/status and signin
paths of src/users.py read or write. -/
structure UserDoc where
  id : Nat
  first_name : String
  department : String
  nickname : String
  password : String
  status : String
  last_active : Option Int
  last_seen : Option Int
deriving Repr, DecidableEq

/-- Mongo `field: \x7b$lt: cutoff\x7d` on an optional timestamp: a document whose
field is absent never matches. -/
def ltCutoff (la : Option Int) (cutoff : Int) : Bool :=
  match la with
  | none => false
  | some t => decide (t < cutoff)

/-- First update_many of check_user_status (src/users.py lines 264-270):
a user with status 'online' whose last_active is before now minus
IDLE_THRESHOLD minutes gets status 'idle'. -/
def sweepIdle (cfg : StatusConfig) (now : Int) (u : UserDoc) : UserDoc :=
  if u.status == "online" && ltCutoff u.last_active (now - 60 * cfg.IDLE_THRESHOLD) then
    { u with status := "idle" }
  else u

/-- Second update_many of check_user_status (src/users.py lines 272-278):
a user with status 'online' or 'idle' whose last_active is before now minus
OFFLINE_THRESHOLD minutes gets status 'offline'. -/
def sweepOffline (cfg : StatusConfig) (now : Int) (u : UserDoc) : UserDoc :=
  if (u.status == "online" || u.status == "idle") &&
      ltCutoff u.last_active (now - 60 * cfg.OFFLINE_THRESHOLD) then
    { u with status := "offline" }
  else u

/-- check_user_status (src/users.py lines 257-278), the happy path of the
presence sweep: the idle update_many over the whole collection, then the
offline update_many over the whole collection. -/
def check_user_status (cfg : StatusConfig) (now : Int) (users : List UserDoc) : List UserDoc :=
  (users.map (sweepIdle cfg now)).map (sweepOffline cfg now)

/-- Where the sweep's try block raises, if anywhere. The try body of
check_user_status performs two sequential atomic bulk writes, so an
exception can strike before any write (get_wat_time or the first
update_many failing at issue time), or between the two update_many calls
(the second failing after the first's idle writes landed), or not at
all. -/
inductive SweepFailure where
  | noFailure
  | beforeWrites
  | betweenWrites
deriving Repr, DecidableEq

/-- check_user_status with its surrounding try/except (src/users.py lines
257-280): an exception raised at any point is printed and swallowed, the
store keeps exactly the bulk writes that completed before the raise
(possibly only the idle pass), and nothing propagates to any caller — a
store is returned for every failure mode. -/
def check_user_status_run (mode : SweepFailure) (cfg : StatusConfig) (now : Int)
    (users : List UserDoc) : List UserDoc :=
  match mode with
  | SweepFailure.noFailure => (users.map (sweepIdle cfg now)).map (sweepOffline cfg now)
  | SweepFailure.beforeWrites => users
  | SweepFailure.betweenWrites => users.map (sweepIdle cfg now)

/-- The recomputation of get_user_status (src/users.py lines 300-305):
inactive_for = (now - last_active) minutes; above OFFLINE_THRESHOLD the
status is 'offline', above IDLE_THRESHOLD it is 'idle', otherwise the
stored status stands. -/
def computeStatus (cfg : StatusConfig) (now la : Int) (stored : String) : String :=
  if now - la > 60 * cfg.OFFLINE_THRESHOLD then "offline"
  else if now - la > 60 * cfg.IDLE_THRESHOLD then "idle"
  else stored

/-- The JSON body of a successful GET /api/users/status/<id> response
(src/users.py lines 313-319); last_seen carries last_active.isoformat(). -/
structure StatusResponse where
  status : String
  last_seen : Option Int
  first_name : String
  department : String
deriving Repr, DecidableEq

/-- Outcome of GET /api/users/status/<id>: a 200 with a body and the store
after the optional lazy correction, a 404, or the handler's 500. -/
inductive StatusReadResult where
  | ok (resp : StatusResponse) (users : List UserDoc)
  | notFound
  | err
deriving Repr, DecidableEq

/-- find_one keyed on `_id`. -/
def findUser (users : List UserDoc) (uid : Nat) : Option UserDoc :=
  users.find? (fun u => u.id == uid)

/-- update_one setting the status of the user with the given `_id`
(ids are unique, so the map touches at most the one document). -/
def setStatus (users : List UserDoc) (uid : Nat) (st : String) : List UserDoc :=
  users.map (fun u => if u.id == uid then { u with status := st } else u)

/-- get_user_status (src/users.py lines 284-322). `persistFails = true`
models the update_one of the lazy correction raising, which the single
try/except of the handler turns into a 500 response. -/
def get_user_status (cfg : StatusConfig) (now : Int) (users : List UserDoc)
    (uid : Nat) (persistFails : Bool) : StatusReadResult :=
  match findUser users uid with
  | none => StatusReadResult.notFound
  | some u =>
    match u.last_active with
    | none => StatusReadResult.ok ⟨u.status, none, u.first_name, u.department⟩ users
    | some la =>
      let st := computeStatus cfg now la u.status
      if st == u.status then
        StatusReadResult.ok ⟨st, some la, u.first_name, u.department⟩ users
      else if persistFails then StatusReadResult.err
      else StatusReadResult.ok ⟨st, some la, u.first_name, u.department⟩ (setStatus users uid st)

/-! Sponsored ads (src/sponsored_ads.py). -/

/-- A sponsored-ad document as built by create_sponsored_ad
(src/sponsored_ads.py lines 66-75); the two public-id fields are present
only when the corresponding file was uploaded. -/
structure AdDoc where
  id : Nat
  title : String
  description : String
  sponsor_name : String
  whatsapp_number : String
  created_at : Int
  expires_at : Int
  is_active : Bool
  sponsor_logo_public_id : Option String
  ad_image_public_id : Option String
deriving Repr, DecidableEq

/-- timedelta(days=1) in seconds. -/
def secondsPerDay : Int := 86400

/-- Outcome of POST /api/admin/sponsored-ads: 201 with the inserted
document, or the 400 for missing required fields. -/
inductive CreateAdResult where
  | created (ad : AdDoc)
  | badRequest
deriving Repr, DecidableEq

/-- create_sponsored_ad (src/sponsored_ads.py lines 33-88). A `none`
duration_days models the form field being absent, defaulted to 7; an empty
string models a missing/falsy required field (the `not all` check);
logoId/imageId are the public ids returned by the uploads, when files were
sent. expires_at = created_at + timedelta(days=duration_days). -/
def create_sponsored_ad (now : Int) (adId : Nat)
    (title description sponsor_name whatsapp_number : String)
    (duration_days : Option Int) (logoId imageId : Option String) : CreateAdResult :=
  if title == "" || description == "" || sponsor_name == "" || whatsapp_number == "" then
    CreateAdResult.badRequest
  else
    let d := duration_days.getD 7
    CreateAdResult.created
      { id := adId, title := title, description := description,
        sponsor_name := sponsor_name, whatsapp_number := whatsapp_number,
        created_at := now, expires_at := now + secondsPerDay * d,
        is_active := true, sponsor_logo_public_id := logoId,
        ad_image_public_id := imageId }

/-- get_active_ads (src/sponsored_ads.py lines 90-113): the find filter
is_active = true AND expires_at > now. The route additionally sorts by
created_at descending, which permutes the list without changing
membership; the sort is omitted. -/
def get_active_ads (now : Int) (ads : List AdDoc) : List AdDoc :=
  ads.filter (fun a => a.is_active && decide (now < a.expires_at))

/-- get_expired_ads (src/sponsored_ads.py lines 169-188): the find filter
is expires_at <= now, with no condition on is_active (sort again omitted). -/
def get_expired_ads (now : Int) (ads : List AdDoc) : List AdDoc :=
  ads.filter (fun a => decide (a.expires_at ≤ now))

/-- The per-document effect of the update_many of check_expired_ads
(src/sponsored_ads.py lines 146-152): an active ad whose expires_at is at
or before now is deactivated. -/
def expireAd (now : Int) (a : AdDoc) : AdDoc :=
  if decide (a.expires_at ≤ now) && a.is_active then { a with is_active := false }
  else a

/-- check_expired_ads (src/sponsored_ads.py lines 140-158), the ad-expiry
sweep's write. -/
def check_expired_ads (now : Int) (ads : List AdDoc) : List AdDoc :=
  ads.map (expireAd now)

/-- find_one keyed on `_id` for ads. -/
def findAd (ads : List AdDoc) (adId : Nat) : Option AdDoc :=
  ads.find? (fun a => a.id == adId)

/-- Outcome of POST /api/admin/sponsored-ads/<ad_id>/extend: 200 with the
updated store, or the 404. -/
inductive ExtendResult where
  | ok (ads : List AdDoc)
  | notFound
deriving Repr, DecidableEq

/-- extend_ad (src/sponsored_ads.py lines 189-213): new_expires_at is the
stored expires_at plus timedelta(days=7); the update_one sets expires_at
and is_active only. -/
def extend_ad (ads : List AdDoc) (adId : Nat) : ExtendResult :=
  match findAd ads adId with
  | none => ExtendResult.notFound
  | some ad =>
    let newExpires := ad.expires_at + secondsPerDay * 7
    ExtendResult.ok (ads.map (fun a =>
      if a.id == adId then { a with expires_at := newExpires, is_active := true } else a))

/-- Outcome of one asset-store (cloudinary) delete call: `ok` is a
returned result of 'ok', `failed` is a returned non-ok result, `raised`
is the call raising an exception (the python client raises on API or
network errors, which is why faculty_wear wraps it in a try/except). -/
inductive AssetResult where
  | ok
  | failed
  | raised
deriving Repr, DecidableEq

/-- Outcome of DELETE /api/admin/sponsored-ads/<ad_id>: 200 with the store
after delete_one, 404, or the handler's 500 (store untouched). -/
inductive DeleteAdResult where
  | success (ads : List AdDoc)
  | notFound
  | err (ads : List AdDoc)
deriving Repr, DecidableEq

/-- delete_ad (src/sponsored_ads.py lines 115-138): the two
cloudinary.uploader.destroy calls run unguarded inside the handler's try,
before the delete_one; if one of them raises, the except returns a 500
and the record is never deleted. A destroy that merely returns a non-ok
result is ignored and the delete proceeds. -/
def delete_ad (ads : List AdDoc) (adId : Nat) (logoDel imageDel : AssetResult) :
    DeleteAdResult :=
  match findAd ads adId with
  | none => DeleteAdResult.notFound
  | some ad =>
    if ad.sponsor_logo_public_id.isSome && (logoDel == AssetResult.raised) then
      DeleteAdResult.err ads
    else if ad.ad_image_public_id.isSome && (imageDel == AssetResult.raised) then
      DeleteAdResult.err ads
    else DeleteAdResult.success (ads.eraseP (fun a => a.id == adId))

/-! Faculty wear (src/faculty_wear.py), the fields the delete path touches. -/

/-- A faculty-wear document, restricted to what delete_wear reads. -/
structure WearDoc where
  id : Nat
  title : String
  image_url : String
deriving Repr, DecidableEq

/-- The `'cloudinary.com' in image_url` substring test. -/
def containsCloudinary (url : String) : Bool :=
  decide (2 ≤ (url.splitOn "cloudinary.com").length)

/-- delete_from_cloudinary (src/faculty_wear.py lines 40-57): a falsy or
non-cloudinary URL short-circuits to false; otherwise the destroy call is
made and its exception, if any, is caught and reported as false, so this
helper never raises. -/
def delete_from_cloudinary (image_url : String) (res : AssetResult) : Bool :=
  if image_url == "" || !containsCloudinary image_url then false
  else
    match res with
    | AssetResult.ok => true
    | AssetResult.failed => false
    | AssetResult.raised => false

/-- Outcome of DELETE /api/faculty-wear/<item_id>: 200 with the store
after delete_one, or 404. -/
inductive DeleteWearResult where
  | success (items : List WearDoc)
  | notFound
deriving Repr, DecidableEq

/-- find_one keyed on `_id` for wear items. -/
def findWear (items : List WearDoc) (itemId : Nat) : Option WearDoc :=
  items.find? (fun w => w.id == itemId)

/-- delete_wear (src/faculty_wear.py lines 261-291): the asset delete runs
only for a cloudinary URL, through delete_from_cloudinary whose boolean
result is ignored; the delete_one then always runs. -/
def delete_wear (items : List WearDoc) (itemId : Nat) (assetRes : AssetResult) :
    DeleteWearResult :=
  match findWear items itemId with
  | none => DeleteWearResult.notFound
  | some item =>
    let _attempted :=
      if item.image_url != "" && containsCloudinary item.image_url then
        delete_from_cloudinary item.image_url assetRes
      else false
    DeleteWearResult.success (items.eraseP (fun w => w.id == itemId))

/-! Signin (src/users.py lines 156-191). -/

/-- One character of the Mongo regex `^<nickname>$` with option `i`, on
the literal-and-dot fragment of the pattern language: a `.` in the
supplied nickname matches any stored character, any other character
matches case-insensitively. -/
def charMatches (p c : Char) : Bool :=
  p == '.' || p.toLower == c.toLower

/-- Anchored match of the supplied nickname, read as a pattern, against a
stored nickname (the `^`/`$` anchors force equal lengths). -/
def patMatch : List Char → List Char → Bool
  | [], [] => true
  | p :: ps, c :: cs => charMatches p c && patMatch ps cs
  | _, _ => false

/-- Outcome of POST /api/auth/signin: 200 with the matched user (the route
also returns a token and stamps last_login, not modelled), or the 401. -/
inductive SigninResult where
  | ok (user : UserDoc)
  | unauthorized
deriving Repr, DecidableEq

/-- signin (src/users.py lines 156-191): find_one with the filter
nickname: \x7b$regex: ^<supplied>$, $options: i\x7d — the supplied nickname is
interpolated unescaped, so it is a pattern, modelled here on its
literal-and-dot fragment. check_password_hash is modelled as equality of
the stored and supplied secrets. -/
def signin (users : List UserDoc) (nickname password : String) : SigninResult :=
  match users.find? (fun u => patMatch nickname.data u.nickname.data) with
  | none => SigninResult.unauthorized
  | some u =>
    if u.password == password then SigninResult.ok u else SigninResult.unauthorized

/-- Case folding of a string, for stating case-insensitive equality. -/
def caseFold (s : String) : List Char :=
  s.data.map Char.toLower

/-! Helper lemmas shared by the claim theorems. -/

/-- A find_one by id commutes with an update_one that sets status on the
found id. -/
theorem findUser_setStatus (users : List UserDoc) (uid : Nat) (st : String) (u : UserDoc)
    (h : findUser users uid = some u) :
    findUser (setStatus users uid st) uid = some { u with status := st } := by
  unfold findUser at h
  unfold findUser setStatus
  have hpu : (u.id == uid) = true :=
    List.find?_some (p := fun x : UserDoc => x.id == uid) h
  rw [List.find?_map]
  have hcomp : ((fun x : UserDoc => x.id == uid) ∘ fun x : UserDoc =>
      if x.id == uid then { x with status := st } else x) =
      fun x : UserDoc => x.id == uid := by
    funext x
    by_cases hx : x.id == uid <;> simp [Function.comp, hx]
  rw [hcomp, h]
  have hid : u.id = uid := by simpa using hpu
  simp [hid]

/-- A find_one by id commutes with an update_one keyed on that id, for any
field update that keeps the id. -/
theorem findAd_update (ads : List AdDoc) (adId : Nat) (f : AdDoc → AdDoc)
    (hid : ∀ a, (f a).id = a.id) (ad : AdDoc)
    (h : findAd ads adId = some ad) :
    findAd (ads.map (fun a => if a.id == adId then f a else a)) adId = some (f ad) := by
  unfold findAd at h
  unfold findAd
  have hpa : (ad.id == adId) = true :=
    List.find?_some (p := fun x : AdDoc => x.id == adId) h
  rw [List.find?_map]
  have hcomp : ((fun x : AdDoc => x.id == adId) ∘ fun x : AdDoc =>
      if x.id == adId then f x else x) = fun x : AdDoc => x.id == adId := by
    funext x
    by_cases hx : x.id == adId <;> simp [Function.comp, hx, hid]
  rw [hcomp, h]
  have hida : ad.id = adId := by simpa using hpa
  simp [hida]

/-- An update_one keyed on a different id leaves a document untouched. -/
theorem mem_map_update_of_ne (ads : List AdDoc) (adId : Nat) (f : AdDoc → AdDoc)
    (a : AdDoc) (ha : a ∈ ads) (hne : a.id ≠ adId) :
    a ∈ ads.map (fun x => if x.id == adId then f x else x) := by
  refine List.mem_map.mpr ⟨a, ha, ?_⟩
  simp [hne]

/-- A user with a last_active strictly older than the offline threshold,
currently online or idle, ends the sweep offline. -/
theorem sweep_offline_of_stale (cfg : StatusConfig) (now : Int) (v : UserDoc) (lv : Int)
    (hla : v.last_active = some lv) (hold : 60 * cfg.OFFLINE_THRESHOLD < now - lv)
    (hst : v.status = "online" ∨ v.status = "idle") :
    (sweepOffline cfg now (sweepIdle cfg now v)).status = "offline" := by
  have hcut : ltCutoff v.last_active (now - 60 * cfg.OFFLINE_THRESHOLD) = true := by
    rw [hla]
    simp only [ltCutoff, decide_eq_true_eq]
    omega
  unfold sweepIdle sweepOffline
  by_cases hI : ltCutoff v.last_active (now - 60 * cfg.IDLE_THRESHOLD) <;>
    rcases hst with hst | hst <;> simp [hst, hI, hcut]

/-- An online user whose last_active age is strictly past the idle
threshold but not past the offline threshold ends the sweep idle. -/
theorem sweep_idle_of_midband (cfg : StatusConfig) (now : Int) (v : UserDoc) (lv : Int)
    (hla : v.last_active = some lv) (h1 : 60 * cfg.IDLE_THRESHOLD < now - lv)
    (h2 : now - lv ≤ 60 * cfg.OFFLINE_THRESHOLD) (hon : v.status = "online") :
    (sweepOffline cfg now (sweepIdle cfg now v)).status = "idle" := by
  have hcutI : ltCutoff v.last_active (now - 60 * cfg.IDLE_THRESHOLD) = true := by
    rw [hla]
    simp only [ltCutoff, decide_eq_true_eq]
    omega
  have hcutO : ltCutoff v.last_active (now - 60 * cfg.OFFLINE_THRESHOLD) = false := by
    rw [hla]
    simp only [ltCutoff, decide_eq_false_iff_not]
    omega
  unfold sweepIdle sweepOffline
  simp [hon, hcutI, hcutO]

/-- The lazy recomputation yields offline strictly past the offline
threshold, for any stored status. -/
theorem computeStatus_offline (cfg : StatusConfig) (now la : Int) (stored : String)
    (h : 60 * cfg.OFFLINE_THRESHOLD < now - la) :
    computeStatus cfg now la stored = "offline" := by
  unfold computeStatus
  rw [if_pos h]

/-- The lazy recomputation yields idle strictly between the idle threshold
(exclusive) and the offline threshold (inclusive), for any stored status. -/
theorem computeStatus_idle (cfg : StatusConfig) (now la : Int) (stored : String)
    (h1 : 60 * cfg.IDLE_THRESHOLD < now - la) (h2 : now - la ≤ 60 * cfg.OFFLINE_THRESHOLD) :
    computeStatus cfg now la stored = "idle" := by
  unfold computeStatus
  rw [if_neg (by omega), if_pos h1]

/-- The per-user presence sweep step is idempotent. -/
theorem sweep_user_idem (cfg : StatusConfig) (now : Int) (u : UserDoc) :
    sweepOffline cfg now (sweepIdle cfg now (sweepOffline cfg now (sweepIdle cfg now u))) =
      sweepOffline cfg now (sweepIdle cfg now u) := by
  unfold sweepIdle sweepOffline
  by_cases hI : ltCutoff u.last_active (now - 60 * cfg.IDLE_THRESHOLD) <;>
  by_cases hO : ltCutoff u.last_active (now - 60 * cfg.OFFLINE_THRESHOLD) <;>
  by_cases hon : u.status == "online" <;>
  by_cases hid : u.status == "idle" <;>
  simp [hI, hO, hon, hid]

/-- The per-ad expiry sweep step is idempotent. -/
theorem expireAd_idem (now : Int) (a : AdDoc) :
    expireAd now (expireAd now a) = expireAd now a := by
  unfold expireAd
  by_cases h1 : a.expires_at ≤ now <;> by_cases h2 : a.is_active <;> simp [h1, h2]

/-- Case-insensitively equal character lists match as pattern and text
(a dot in the pattern also matches a dot). -/
theorem patMatch_of_caseFold_eq : ∀ l1 l2 : List Char,
    l1.map Char.toLower = l2.map Char.toLower → patMatch l1 l2 = true := by
  intro l1
  induction l1 with
  | nil =>
    intro l2 h
    cases l2 with
    | nil => rfl
    | cons c cs => simp at h
  | cons p ps ih =>
    intro l2 h
    cases l2 with
    | nil => simp at h
    | cons c cs =>
      simp only [List.map_cons, List.cons.injEq] at h
      unfold patMatch charMatches
      rw [Bool.and_eq_true]
      constructor
      · rw [Bool.or_eq_true]
        right
        exact beq_iff_eq.mpr h.1
      · exact ih cs h.2

/-- On a dot-free supplied nickname the regex match is exactly
case-insensitive equality. -/
theorem patMatch_no_dot : ∀ l1 l2 : List Char, (∀ c ∈ l1, c ≠ '.') →
    (patMatch l1 l2 = true ↔ l1.map Char.toLower = l2.map Char.toLower) := by
  intro l1
  induction l1 with
  | nil =>
    intro l2 _
    cases l2 with
    | nil => simp [patMatch]
    | cons c cs => simp [patMatch]
  | cons p ps ih =>
    intro l2 hnd
    cases l2 with
    | nil => simp [patMatch]
    | cons c cs =>
      have hp : p ≠ '.' := hnd p (List.mem_cons_self p ps)
      have hps : ∀ x ∈ ps, x ≠ '.' := fun x hx => hnd x (List.mem_cons_of_mem p hx)
      unfold patMatch charMatches
      rw [Bool.and_eq_true, Bool.or_eq_true]
      simp only [List.map_cons, List.cons.injEq]
      constructor
      · rintro ⟨hpc | hpc, hrest⟩
        · exact absurd (beq_iff_eq.mp hpc) hp
        · exact ⟨beq_iff_eq.mp hpc, (ih cs hps).mp hrest⟩
      · rintro ⟨hhead, htail⟩
        exact ⟨Or.inr (beq_iff_eq.mpr hhead), (ih cs hps).mpr htail⟩

/-! Claim C1. -/

/-- Thresholds 5 and 10 minutes, for the C1 concrete records. -/
def c1Cfg : StatusConfig := { IDLE_THRESHOLD := 5, OFFLINE_THRESHOLD := 10 }

/-- A user whose stored status is the account-level value 'active' and
whose last_active is far in the past. -/
def c1User : UserDoc :=
  { id := 1, first_name := "Ada", department := "CS", nickname := "ada", password := "pw",
    status := "active", last_active := some 0, last_seen := some 0 }

/-- Claim C1 is false as stated: a user with stored status 'active' whose
last_active (time 0) is strictly older than OFFLINE_THRESHOLD minutes
before now (100000 s) is left completely unchanged by a presence sweep
tick — the sweep's filters only match status 'online' or 'idle', so the
stored status stays 'active', not 'offline'. -/
theorem C1_counterexample :
    c1User.status = "active" ∧ c1User.last_active = some 0 ∧
    60 * c1Cfg.OFFLINE_THRESHOLD < (100000 : Int) - 0 ∧
    check_user_status c1Cfg 100000 [c1User] = [c1User] := by decide

/-- Claim C1 as amended: for a user whose last_active is strictly older
than OFFLINE_THRESHOLD minutes, the status read returns 'offline' and
leaves the stored status 'offline' regardless of the prior stored value;
the sweep tick sets such a user 'offline' only when the stored status is
'online' or 'idle' (the sweep is the composition of the idle and offline
bulk updates). -/
theorem C1_amended (cfg : StatusConfig) (now : Int) (users : List UserDoc) (uid : Nat)
    (u : UserDoc) (la : Int)
    (hfind : findUser users uid = some u) (hla : u.last_active = some la)
    (hold : 60 * cfg.OFFLINE_THRESHOLD < now - la) :
    (∃ resp users', get_user_status cfg now users uid false = StatusReadResult.ok resp users' ∧
      resp.status = "offline" ∧
      ∃ u', findUser users' uid = some u' ∧ u'.status = "offline") ∧
    check_user_status cfg now users =
      users.map (fun v => sweepOffline cfg now (sweepIdle cfg now v)) ∧
    (∀ v : UserDoc, ∀ lv : Int, v.last_active = some lv →
      60 * cfg.OFFLINE_THRESHOLD < now - lv → (v.status = "online" ∨ v.status = "idle") →
      (sweepOffline cfg now (sweepIdle cfg now v)).status = "offline") := by
  refine ⟨?_, ?_, ?_⟩
  · have hcs : computeStatus cfg now la u.status = "offline" :=
      computeStatus_offline cfg now la u.status hold
    simp only [get_user_status, hfind, hla, hcs]
    by_cases hst : u.status = "offline"
    · rw [if_pos (by simp [hst])]
      exact ⟨_, users, rfl, rfl, u, hfind, hst⟩
    · rw [if_neg (by simp only [beq_iff_eq]; exact fun hh => hst hh.symm), if_neg (by simp)]
      exact ⟨_, _, rfl, rfl, { u with status := "offline" },
        findUser_setStatus users uid "offline" u hfind, rfl⟩
  · unfold check_user_status
    rw [List.map_map]
    rfl
  · intro v lv hlv hstale hst
    exact sweep_offline_of_stale cfg now v lv hlv hstale hst

/-- An online user with stale last_active, for the C1 witness. -/
def c1wUser : UserDoc :=
  { id := 1, first_name := "Ada", department := "CS", nickname := "ada", password := "pw",
    status := "online", last_active := some 0, last_seen := some 0 }

/-- Witness for C1_amended at the concrete store [c1wUser], now = 100000 s. -/
theorem C1_amended_witness :
    (∃ resp users', get_user_status c1Cfg 100000 [c1wUser] 1 false =
        StatusReadResult.ok resp users' ∧ resp.status = "offline" ∧
      ∃ u', findUser users' 1 = some u' ∧ u'.status = "offline") ∧
    check_user_status c1Cfg 100000 [c1wUser] =
      [c1wUser].map (fun v => sweepOffline c1Cfg 100000 (sweepIdle c1Cfg 100000 v)) ∧
    (∀ v : UserDoc, ∀ lv : Int, v.last_active = some lv →
      60 * c1Cfg.OFFLINE_THRESHOLD < 100000 - lv → (v.status = "online" ∨ v.status = "idle") →
      (sweepOffline c1Cfg 100000 (sweepIdle c1Cfg 100000 v)).status = "offline") :=
  C1_amended c1Cfg 100000 [c1wUser] 1 c1wUser 0 (by decide) (by decide) (by decide)

/-! Claim C2. -/

/-- Claim C2: extending an ad by identifier sets its expires_at to the
stored expires_at plus exactly 7 days (there is no reference to the
current time anywhere in extend_ad, so this holds even for an expiry in
the past), sets is_active to true, changes no other field of the record
(the found record is updated only in those two fields), and leaves every
other ad untouched. -/
theorem C2_extend (ads : List AdDoc) (adId : Nat) (ad : AdDoc)
    (hfind : findAd ads adId = some ad) :
    ∃ ads', extend_ad ads adId = ExtendResult.ok ads' ∧
      findAd ads' adId = some { ad with expires_at := ad.expires_at + secondsPerDay * 7,
                                        is_active := true } ∧
      ∀ a ∈ ads, a.id ≠ adId → a ∈ ads' := by
  simp only [extend_ad, hfind]
  refine ⟨_, rfl, ?_, ?_⟩
  · exact findAd_update ads adId
      (fun a => { a with expires_at := ad.expires_at + secondsPerDay * 7, is_active := true })
      (fun a => rfl) ad hfind
  · intro a ha hne
    exact mem_map_update_of_ne ads adId _ a ha hne

/-- A one-ad store whose ad is already expired (negative expires_at),
for the C2 witness. -/
def c2Ads : List AdDoc :=
  [{ id := 7, title := "T", description := "De", sponsor_name := "S",
     whatsapp_number := "08011111111", created_at := 0, expires_at := -100,
     is_active := false, sponsor_logo_public_id := none, ad_image_public_id := none }]

/-- Witness for C2_extend on a concrete already-expired, inactive ad. -/
theorem C2_extend_witness :
    ∃ ads', extend_ad c2Ads 7 = ExtendResult.ok ads' ∧
      findAd ads' 7 = some { (c2Ads.get ⟨0, by decide⟩) with
                             expires_at := (c2Ads.get ⟨0, by decide⟩).expires_at +
                               secondsPerDay * 7,
                             is_active := true } ∧
      ∀ a ∈ c2Ads, a.id ≠ 7 → a ∈ ads' :=
  C2_extend c2Ads 7 (c2Ads.get ⟨0, by decide⟩) (by decide)

/-! Claim C3. -/

/-- Claim C3: the active-ads query returns exactly the ads with
is_active = true and expires_at strictly greater than now; in particular
any ad with expires_at at or before now is excluded even if its stored
is_active flag is still true. -/
theorem C3_active_query (now : Int) (ads : List AdDoc) (a : AdDoc) :
    (a ∈ get_active_ads now ads ↔ a ∈ ads ∧ a.is_active = true ∧ now < a.expires_at) ∧
    (a.expires_at ≤ now → a ∉ get_active_ads now ads) := by
  have hmem : a ∈ get_active_ads now ads ↔
      a ∈ ads ∧ a.is_active = true ∧ now < a.expires_at := by
    simp [get_active_ads, List.mem_filter, and_assoc]
  refine ⟨hmem, ?_⟩
  intro hle hin
  have h2 := (hmem.mp hin).2.2
  omega

/-- An expired-but-still-flagged-active ad, for the C3 witness. -/
def c3Ad : AdDoc :=
  { id := 3, title := "T", description := "De", sponsor_name := "S",
    whatsapp_number := "08011111111", created_at := 0, expires_at := 50,
    is_active := true, sponsor_logo_public_id := none, ad_image_public_id := none }

/-- Witness for C3_active_query at now = 100, past c3Ad's expiry. -/
theorem C3_active_query_witness :
    (c3Ad ∈ get_active_ads 100 [c3Ad] ↔
      c3Ad ∈ [c3Ad] ∧ c3Ad.is_active = true ∧ (100 : Int) < c3Ad.expires_at) ∧
    (c3Ad.expires_at ≤ 100 → c3Ad ∉ get_active_ads 100 [c3Ad]) :=
  C3_active_query 100 [c3Ad] c3Ad

/-! Claim C4. -/

/-- An ad with an uploaded sponsor logo, for the C4 counterexample. -/
def c4Ad : AdDoc :=
  { id := 1, title := "T", description := "De", sponsor_name := "S",
    whatsapp_number := "08011111111", created_at := 0, expires_at := 86400,
    is_active := true, sponsor_logo_public_id := some "sponsored_ads/logos/x1",
    ad_image_public_id := none }

/-- Claim C4 is false as stated for the sponsored-ads delete: when the
asset-store delete of the logo raises (cloudinary.uploader.destroy is
called unguarded inside the handler's try), the handler returns a 500 and
the ad record is NOT removed from the store — the store comes back
unchanged rather than with the record deleted. -/
theorem C4_counterexample :
    c4Ad.sponsor_logo_public_id.isSome = true ∧
    delete_ad [c4Ad] 1 AssetResult.raised AssetResult.ok = DeleteAdResult.err [c4Ad] := by
  decide

/-- Claim C4 as amended: the faculty-wear delete removes the record and
returns success for every asset-store outcome including a raised
exception (its delete_from_cloudinary wrapper swallows it); the
sponsored-ads delete removes the record and returns success whenever
neither asset-store call raises — a delete that merely reports failure by
its return value never prevents the record delete there either. -/
theorem C4_amended (items : List WearDoc) (itemId : Nat) (w : WearDoc) (res : AssetResult)
    (hw : findWear items itemId = some w)
    (ads : List AdDoc) (adId : Nat) (ad : AdDoc) (ld imd : AssetResult)
    (ha : findAd ads adId = some ad)
    (hld : ld ≠ AssetResult.raised) (himd : imd ≠ AssetResult.raised) :
    delete_wear items itemId res =
      DeleteWearResult.success (items.eraseP (fun x => x.id == itemId)) ∧
    delete_ad ads adId ld imd =
      DeleteAdResult.success (ads.eraseP (fun a => a.id == adId)) := by
  constructor
  · simp only [delete_wear, hw]
  · have h1 : (ld == AssetResult.raised) = false := beq_eq_false_iff_ne.mpr hld
    have h2 : (imd == AssetResult.raised) = false := beq_eq_false_iff_ne.mpr himd
    simp only [delete_ad, ha, h1, h2, Bool.and_false, Bool.false_eq_true, if_false]

/-- A wear item with a cloudinary image URL, for the C4 witness. -/
def c4wItems : List WearDoc :=
  [{ id := 2, title := "W",
     image_url := "https://res.cloudinary.com/d/image/upload/faculty_wear/img.png" }]

/-- An ad store with both public ids present, for the C4 witness. -/
def c4wAds : List AdDoc :=
  [{ id := 5, title := "T", description := "De", sponsor_name := "S",
     whatsapp_number := "08011111111", created_at := 0, expires_at := 86400,
     is_active := true, sponsor_logo_public_id := some "sponsored_ads/logos/x1",
     ad_image_public_id := some "sponsored_ads/images/x2" }]

/-- Witness for C4_amended: a raising asset delete on the wear path and
returned-failure asset deletes on the ad path all still delete the
records. -/
theorem C4_amended_witness :
    delete_wear c4wItems 2 AssetResult.raised =
      DeleteWearResult.success (c4wItems.eraseP (fun x => x.id == 2)) ∧
    delete_ad c4wAds 5 AssetResult.failed AssetResult.failed =
      DeleteAdResult.success (c4wAds.eraseP (fun a => a.id == 5)) :=
  C4_amended c4wItems 2 (c4wItems.get ⟨0, by decide⟩) AssetResult.raised (by decide)
    c4wAds 5 (c4wAds.get ⟨0, by decide⟩) AssetResult.failed AssetResult.failed
    (by decide) (by decide) (by decide)

/-! Claim C5. -/

/-- Thresholds 5 and 10 minutes, for the C5 concrete records. -/
def c5Cfg : StatusConfig := { IDLE_THRESHOLD := 5, OFFLINE_THRESHOLD := 10 }

/-- An online user whose stale last_active requires a lazy correction. -/
def c5User : UserDoc :=
  { id := 1, first_name := "Eve", department := "LAW", nickname := "eve", password := "pw",
    status := "online", last_active := some 0, last_seen := some 0 }

/-- Claim C5 is false as stated for the lazy read: for a user whose
recomputed status ('offline') differs from the stored one ('online'), a
failure of the persistence update_one makes GET /api/users/status/<id>
return the handler's 500 error instead of degrading to the stored
status. -/
theorem C5_counterexample :
    c5User.status = "online" ∧
    computeStatus c5Cfg 100000 0 "online" = "offline" ∧
    get_user_status c5Cfg 100000 [c5User] 1 true = StatusReadResult.err := by decide

/-- Claim C5 as amended: sweep failures never propagate anywhere — a
sweep tick raising at any point swallows the exception and returns a
store holding exactly the bulk writes completed before the raise (the
unchanged store for a failure before any write, only the idle pass for a
failure between the two update_many calls, the full sweep when nothing
fails) — but a failure during the lazy read's persistence of a needed
correction makes the read request itself fail with a 500 error response
rather than degrade to the last stored status. -/
theorem C5_amended (cfg : StatusConfig) (now : Int) (users : List UserDoc)
    (uid : Nat) (u : UserDoc) (la : Int)
    (hfind : findUser users uid = some u) (hla : u.last_active = some la)
    (hdiff : computeStatus cfg now la u.status ≠ u.status) :
    check_user_status_run SweepFailure.noFailure cfg now users =
      check_user_status cfg now users ∧
    check_user_status_run SweepFailure.beforeWrites cfg now users = users ∧
    check_user_status_run SweepFailure.betweenWrites cfg now users =
      users.map (sweepIdle cfg now) ∧
    get_user_status cfg now users uid true = StatusReadResult.err := by
  refine ⟨rfl, rfl, rfl, ?_⟩
  have hb : (computeStatus cfg now la u.status == u.status) = false :=
    beq_eq_false_iff_ne.mpr hdiff
  simp only [get_user_status, hfind, hla, hb, Bool.false_eq_true, if_false, if_pos]

/-- An online user with stale last_active, for the C5 witness. -/
def c5wUser : UserDoc :=
  { id := 1, first_name := "Eve", department := "LAW", nickname := "eve", password := "pw",
    status := "online", last_active := some 0, last_seen := some 0 }

/-- Witness for C5_amended at a concrete store, covering every sweep
failure mode and the failing lazy persistence. -/
theorem C5_amended_witness :
    check_user_status_run SweepFailure.noFailure c5Cfg 100000 [c5wUser] =
      check_user_status c5Cfg 100000 [c5wUser] ∧
    check_user_status_run SweepFailure.beforeWrites c5Cfg 100000 [c5wUser] = [c5wUser] ∧
    check_user_status_run SweepFailure.betweenWrites c5Cfg 100000 [c5wUser] =
      [c5wUser].map (sweepIdle c5Cfg 100000) ∧
    get_user_status c5Cfg 100000 [c5wUser] 1 true = StatusReadResult.err :=
  C5_amended c5Cfg 100000 [c5wUser] 1 c5wUser 0 (by decide) (by decide) (by decide)

/-! Claim C6. -/

/-- Thresholds 5 and 10 minutes, for the C6 concrete records. -/
def c6Cfg : StatusConfig := { IDLE_THRESHOLD := 5, OFFLINE_THRESHOLD := 10 }

/-- An online user whose last_active age is exactly the idle threshold. -/
def c6User : UserDoc :=
  { id := 1, first_name := "Joe", department := "CS", nickname := "joe", password := "pw",
    status := "online", last_active := some 0, last_seen := some 0 }

/-- Claim C6 is false as stated at the lower boundary: a user whose
last_active age is exactly IDLE_THRESHOLD minutes (300 s at threshold 5)
— which the claim's band idle_threshold <= age < offline_threshold
contains — is yielded as 'online', not 'idle', by both the status read
(inactive_for > IDLE_THRESHOLD is strict) and a sweep tick
($lt is strict). -/
theorem C6_counterexample :
    (60 * c6Cfg.IDLE_THRESHOLD ≤ (300 : Int) - 0 ∧
      (300 : Int) - 0 < 60 * c6Cfg.OFFLINE_THRESHOLD) ∧
    get_user_status c6Cfg 300 [c6User] 1 false =
      StatusReadResult.ok ⟨"online", some 0, "Joe", "CS"⟩ [c6User] ∧
    check_user_status c6Cfg 300 [c6User] = [c6User] := by decide

/-- Claim C6 as amended: on the half-open band
idle_threshold < age(last_active) <= offline_threshold (strict at the
idle threshold, inclusive at the offline threshold) the status read
yields 'idle' for any stored status, and a sweep tick yields 'idle' for
users whose stored status is 'online'. -/
theorem C6_amended (cfg : StatusConfig) (now : Int) (users : List UserDoc) (uid : Nat)
    (u : UserDoc) (la : Int)
    (hfind : findUser users uid = some u) (hla : u.last_active = some la)
    (h1 : 60 * cfg.IDLE_THRESHOLD < now - la) (h2 : now - la ≤ 60 * cfg.OFFLINE_THRESHOLD) :
    (∃ users', get_user_status cfg now users uid false =
      StatusReadResult.ok ⟨"idle", some la, u.first_name, u.department⟩ users') ∧
    (∀ v : UserDoc, ∀ lv : Int, v.last_active = some lv →
      60 * cfg.IDLE_THRESHOLD < now - lv → now - lv ≤ 60 * cfg.OFFLINE_THRESHOLD →
      v.status = "online" →
      (sweepOffline cfg now (sweepIdle cfg now v)).status = "idle") := by
  constructor
  · have hcs : computeStatus cfg now la u.status = "idle" :=
      computeStatus_idle cfg now la u.status h1 h2
    simp only [get_user_status, hfind, hla, hcs]
    by_cases hst : u.status = "idle"
    · rw [if_pos (by simp [hst])]
      exact ⟨users, rfl⟩
    · rw [if_neg (by simp only [beq_iff_eq]; exact fun hh => hst hh.symm), if_neg (by simp)]
      exact ⟨_, rfl⟩
  · intro v lv hlv hv1 hv2 hon
    exact sweep_idle_of_midband cfg now v lv hlv hv1 hv2 hon

/-- An online user whose last_active age (400 s) is inside the idle band. -/
def c6wUser : UserDoc :=
  { id := 1, first_name := "Joe", department := "CS", nickname := "joe", password := "pw",
    status := "online", last_active := some 0, last_seen := some 0 }

/-- Witness for C6_amended at age 400 s with thresholds 5 and 10 minutes. -/
theorem C6_amended_witness :
    (∃ users', get_user_status c6Cfg 400 [c6wUser] 1 false =
      StatusReadResult.ok ⟨"idle", some 0, "Joe", "CS"⟩ users') ∧
    (∀ v : UserDoc, ∀ lv : Int, v.last_active = some lv →
      60 * c6Cfg.IDLE_THRESHOLD < 400 - lv → 400 - lv ≤ 60 * c6Cfg.OFFLINE_THRESHOLD →
      v.status = "online" →
      (sweepOffline c6Cfg 400 (sweepIdle c6Cfg 400 v)).status = "idle") :=
  C6_amended c6Cfg 400 [c6wUser] 1 c6wUser 0 (by decide) (by decide) (by decide) (by decide)

/-! Claim C7. -/

/-- A stored user with nickname 'abc', for the C7 counterexample. -/
def c7User : UserDoc :=
  { id := 1, first_name := "Bob", department := "CS", nickname := "abc",
    password := "secretpass", status := "active", last_active := none, last_seen := none }

/-- Claim C7 is false as stated: the supplied nickname is interpolated
unescaped into the anchored case-insensitive regex, so the supplied
nickname 'a.c' — which is NOT case-insensitively equal to the stored
'abc' — still signs in successfully with the correct password: a pattern
match, not an exact match. -/
theorem C7_counterexample :
    signin [c7User] "a.c" "secretpass" = SigninResult.ok c7User ∧
    caseFold "a.c" ≠ caseFold c7User.nickname := by decide

/-- Claim C7 as amended: a sign-in whose supplied nickname differs from
the stored one only in letter case succeeds with the correct password;
and as long as the supplied nickname contains no regex metacharacter
(no dot, in the modelled fragment), it matches a stored nickname exactly
when the two are case-insensitively equal — but a supplied nickname
containing metacharacters is interpreted as a pattern. -/
theorem C7_amended (u : UserDoc) (nickname password : String)
    (hcase : caseFold nickname = caseFold u.nickname) (hpw : password = u.password) :
    signin [u] nickname password = SigninResult.ok u ∧
    (∀ s t : String, (∀ c ∈ s.data, c ≠ '.') →
      (patMatch s.data t.data = true ↔ caseFold s = caseFold t)) := by
  constructor
  · have hm : patMatch nickname.data u.nickname.data = true :=
      patMatch_of_caseFold_eq nickname.data u.nickname.data hcase
    have hpwb : (u.password == password) = true := beq_iff_eq.mpr hpw.symm
    simp only [signin, List.find?_cons, List.find?_nil, hm, hpwb, if_pos]
  · intro s t hnd
    exact patMatch_no_dot s.data t.data hnd

/-- A stored user with nickname 'abc', for the C7 witness. -/
def c7wUser : UserDoc :=
  { id := 1, first_name := "Bob", department := "CS", nickname := "abc",
    password := "secretpass", status := "active", last_active := none, last_seen := none }

/-- Witness for C7_amended: 'ABC' (case-only difference) signs in. -/
theorem C7_amended_witness :
    signin [c7wUser] "ABC" "secretpass" = SigninResult.ok c7wUser ∧
    (∀ s t : String, (∀ c ∈ s.data, c ≠ '.') →
      (patMatch s.data t.data = true ↔ caseFold s = caseFold t)) :=
  C7_amended c7wUser "ABC" "secretpass" (by decide) (by decide)

/-! Claim C8. -/

/-- Claim C8: an ad created with duration_days = 0 has
expires_at = created_at = the creation time, so at any query time at or
after creation it is in the expired listing and excluded from the active
listing (no sweep involved in either query); creation sets
expires_at = creation time + duration_days with the duration defaulting
to 7 days when absent, and is_active = true. -/
theorem C8_create (now q : Int) (adId : Nat) (t d s w : String) (dd : Int)
    (logoId imageId : Option String)
    (ht : t ≠ "") (hd : d ≠ "") (hs : s ≠ "") (hw : w ≠ "") :
    (∀ ad : AdDoc, create_sponsored_ad now adId t d s w (some 0) logoId imageId =
        CreateAdResult.created ad →
      ad.expires_at = ad.created_at ∧ ad.created_at = now ∧ ad.is_active = true ∧
      (now ≤ q → ad ∈ get_expired_ads q [ad] ∧ ad ∉ get_active_ads q [ad])) ∧
    (∀ ad : AdDoc, create_sponsored_ad now adId t d s w none logoId imageId =
        CreateAdResult.created ad →
      ad.expires_at = now + secondsPerDay * 7 ∧ ad.is_active = true) ∧
    (∀ ad : AdDoc, create_sponsored_ad now adId t d s w (some dd) logoId imageId =
        CreateAdResult.created ad →
      ad.expires_at = now + secondsPerDay * dd ∧ ad.is_active = true) := by
  have hbt : (t == "") = false := beq_eq_false_iff_ne.mpr ht
  have hbd : (d == "") = false := beq_eq_false_iff_ne.mpr hd
  have hbs : (s == "") = false := beq_eq_false_iff_ne.mpr hs
  have hbw : (w == "") = false := beq_eq_false_iff_ne.mpr hw
  refine ⟨?_, ?_, ?_⟩
  · intro ad had
    simp only [create_sponsored_ad, hbt, hbd, hbs, hbw, Bool.or_self, Bool.false_or,
      Bool.false_eq_true, if_false, CreateAdResult.created.injEq, Option.getD_some] at had
    subst had
    refine ⟨by simp, rfl, rfl, ?_⟩
    intro hq
    constructor
    · simp [get_expired_ads]
      omega
    · simp [get_active_ads]
      omega
  · intro ad had
    simp only [create_sponsored_ad, hbt, hbd, hbs, hbw, Bool.or_self, Bool.false_or,
      Bool.false_eq_true, if_false, CreateAdResult.created.injEq, Option.getD_none] at had
    subst had
    exact ⟨rfl, rfl⟩
  · intro ad had
    simp only [create_sponsored_ad, hbt, hbd, hbs, hbw, Bool.or_self, Bool.false_or,
      Bool.false_eq_true, if_false, CreateAdResult.created.injEq, Option.getD_some] at had
    subst had
    exact ⟨rfl, rfl⟩

/-- Witness for C8_create at creation time 1000, query time 5000,
duration 0, absent duration, and duration 3. -/
theorem C8_create_witness :
    (∀ ad : AdDoc, create_sponsored_ad 1000 9 "T" "De" "S" "08011111111" (some 0) none none =
        CreateAdResult.created ad →
      ad.expires_at = ad.created_at ∧ ad.created_at = 1000 ∧ ad.is_active = true ∧
      ((1000 : Int) ≤ 5000 → ad ∈ get_expired_ads 5000 [ad] ∧ ad ∉ get_active_ads 5000 [ad])) ∧
    (∀ ad : AdDoc, create_sponsored_ad 1000 9 "T" "De" "S" "08011111111" none none none =
        CreateAdResult.created ad →
      ad.expires_at = 1000 + secondsPerDay * 7 ∧ ad.is_active = true) ∧
    (∀ ad : AdDoc, create_sponsored_ad 1000 9 "T" "De" "S" "08011111111" (some 3) none none =
        CreateAdResult.created ad →
      ad.expires_at = 1000 + secondsPerDay * 3 ∧ ad.is_active = true) :=
  C8_create 1000 5000 9 "T" "De" "S" "08011111111" 3 none none
    (by decide) (by decide) (by decide) (by decide)

/-! Claim C9. -/

/-- Claim C9: both periodic sweeps are idempotent — at a fixed current
time, a second presence sweep over an already-swept user store and a
second ad-expiry sweep over an already-swept ad store change nothing. -/
theorem C9_idempotent (cfg : StatusConfig) (nowU : Int) (users : List UserDoc)
    (nowA : Int) (ads : List AdDoc) :
    check_user_status cfg nowU (check_user_status cfg nowU users) =
      check_user_status cfg nowU users ∧
    check_expired_ads nowA (check_expired_ads nowA ads) = check_expired_ads nowA ads := by
  constructor
  · unfold check_user_status
    simp only [List.map_map]
    induction users with
    | nil => rfl
    | cons v vs ih =>
      simp only [List.map_cons, List.cons.injEq]
      exact ⟨sweep_user_idem cfg nowU v, ih⟩
  · unfold check_expired_ads
    simp only [List.map_map]
    induction ads with
    | nil => rfl
    | cons a as ih =>
      simp only [List.map_cons, List.cons.injEq]
      exact ⟨expireAd_idem nowA a, ih⟩

/-! Claim C10. -/

/-- Claim C10: the last_seen value of a successful status read is always
the user's stored last_active (or null when last_active is absent) — the
stored last_seen field is not part of the response (the handler does not
even project it from the store), so a user whose last_active and
last_seen differ has last_active reported under the name last_seen. -/
theorem C10_last_seen (cfg : StatusConfig) (now : Int) (users : List UserDoc) (uid : Nat)
    (u : UserDoc) (hfind : findUser users uid = some u) :
    ∃ resp users', get_user_status cfg now users uid false = StatusReadResult.ok resp users' ∧
      resp.last_seen = u.last_active := by
  simp only [get_user_status, hfind]
  split
  next hla => exact ⟨_, users, rfl, hla.symm⟩
  next la hla =>
    split
    · exact ⟨_, users, rfl, hla.symm⟩
    · exact ⟨_, _, rfl, hla.symm⟩

/-- A user whose last_active (5) and last_seen (99) differ, for the C10
witness. -/
def c10User : UserDoc :=
  { id := 1, first_name := "Kim", department := "CS", nickname := "kim", password := "pw",
    status := "online", last_active := some 5, last_seen := some 99 }

/-- Thresholds 5 and 10 minutes, for the C10 witness. -/
def c10Cfg : StatusConfig := { IDLE_THRESHOLD := 5, OFFLINE_THRESHOLD := 10 }

/-- Witness for C10_last_seen on a user whose last_active and last_seen
differ. -/
theorem C10_last_seen_witness :
    ∃ resp users', get_user_status c10Cfg 6 [c10User] 1 false =
      StatusReadResult.ok resp users' ∧ resp.last_seen = c10User.last_active :=
  C10_last_seen c10Cfg 6 [c10User] 1 c10User (by decide)

end NaitsServer
